import Mathlib

/-!
# Gaya data-quality checker — shallow embedding

A shallow embedding of the core of the `gaya` data-quality check runner:
the frozen statistics model (`gaya/checks/base.py`), the pure rule
functions (`gaya/checks/*.py`), the baseline store
(`gaya/baseline/store.py`, with the filesystem modelled as a keyed list
of stored records), and the orchestrator (`gaya/runner.py`).

Python `float` percentages are modelled as `ℚ` (the code only divides,
takes absolute values and compares, all exact on the inputs modelled
here); Python `int` as `Int`; `dict[str, str]` as an association list
compared with map-extensional equality (Python `dict` equality).
Numeric string formatting (thousands separators, `.1%` rendering) is
rendered via `toString`: no claim below depends on how a number is
printed, only on which names/labels a message carries, and those parts
are rendered faithfully.
-/

namespace Gaya

/-- Source `Status` enum from `gaya/checks/base.py`. -/
inductive Status where
  | PASS
  | WARN
  | FAIL
deriving DecidableEq, Repr

/-- Source `Layer` enum from `gaya/checks/base.py`. -/
inductive Layer where
  | UPSTREAM
  | STAGING
  | DOWNSTREAM
deriving DecidableEq, Repr

/-- Source `.value` of a `Layer` member (the enum's string payload). -/
def Layer.value : Layer → String
  | .UPSTREAM   => "upstream"
  | .STAGING    => "staging"
  | .DOWNSTREAM => "downstream"

/-- A Python value carried in the untyped `expected` / `actual` slots of a
`CheckResult` (`Optional[Any]` in the source). -/
inductive PyVal where
  | str (s : String)
  | int (n : Int)
  | rat (q : ℚ)
  | strList (l : List String)
deriving DecidableEq, Repr

/-- A Python `dict[str, str]` as an insertion-ordered association list. -/
abbrev Dict := List (String × String)

/-- Source `d.get(k)` / `d[k]` lookup on a `dict[str, str]`. -/
def dictGet (d : Dict) (k : String) : Option String :=
  (d.find? (fun p => p.1 == k)).map (·.2)

/-- The keys of a `dict[str, str]` (`d.keys()`). -/
def dictKeys (d : Dict) : List String :=
  d.map (·.1)

/-- Python `dict` equality: the two association lists denote the same
key→value map. -/
def dictBeq (a b : Dict) : Bool :=
  (dictKeys a ++ dictKeys b).all (fun k => dictGet a k == dictGet b k)

/-- Source `ColumnStats` from `gaya/checks/base.py`.  The informational
`min_value` / `max_value` / `sample_values` slots (typed `Any`, defaulted,
and never read by any embedded check) are elided. -/
structure ColumnStats where
  name           : String
  dtype          : String
  row_count      : Int
  null_count     : Int
  distinct_count : Int
deriving DecidableEq, Repr

/-- Source `ColumnStats.null_pct`: `null_count / row_count`, or `0.0` when
`row_count == 0`. -/
def ColumnStats.null_pct (c : ColumnStats) : ℚ :=
  if c.row_count = 0 then 0 else (c.null_count : ℚ) / (c.row_count : ℚ)

/-- Source `TableStats` from `gaya/checks/base.py`. -/
structure TableStats where
  table_name   : String
  layer        : Layer
  row_count    : Int
  columns      : List ColumnStats
  schema       : Dict
  collected_at : String
deriving DecidableEq, Repr

/-- Source `TableStats.column(name)`: lookup a column by name, `None` if absent. -/
def TableStats.column (s : TableStats) (name : String) : Option ColumnStats :=
  s.columns.find? (fun c => c.name == name)

/-- Source `TableStats.column_names()`. -/
def TableStats.column_names (s : TableStats) : List String :=
  s.columns.map (·.name)

/-- Source `Baseline` from `gaya/checks/base.py`. -/
structure Baseline where
  table_name : String
  row_count  : Int
  schema     : Dict
  run_at     : String
  run_count  : Int := 1
deriving DecidableEq, Repr

/-- Source `CheckResult` from `gaya/checks/base.py`. -/
structure CheckResult where
  check    : String
  table    : String
  layer    : Layer
  status   : Status
  message  : String
  column   : Option String := none
  expected : Option PyVal  := none
  actual   : Option PyVal  := none
  hint     : Option String := none
deriving DecidableEq, Repr

/-- Source `NullConfig` from `gaya/checks/base.py` (`None` columns = all). -/
structure NullConfig where
  columns  : Option (List String) := none
  warn_pct : ℚ := 10 / 100
  fail_pct : ℚ := 25 / 100

/-- Source `RequiredConfig` from `gaya/checks/base.py`. -/
structure RequiredConfig where
  columns : List String

/-- Source `UniqueConfig` from `gaya/checks/base.py`. -/
structure UniqueConfig where
  columns : List String

/-- Source `RowCountConfig` from `gaya/checks/base.py`. -/
structure RowCountConfig where
  min_rows : Option Int := none
  max_rows : Option Int := none

/-- Source `VolumeChangeConfig` from `gaya/checks/base.py`. -/
structure VolumeChangeConfig where
  warn_pct : ℚ := 20 / 100
  fail_pct : ℚ := 40 / 100

/-- Source `SchemaConfig` from `gaya/checks/base.py`. -/
structure SchemaConfig where
  expected : Dict

/-- Source `SchemaDriftConfig` from `gaya/checks/base.py` (the field is never read
by `check_schema_drift`). -/
structure SchemaDriftConfig where
  baseline_columns : List String

/-- Stand-in for Python `f"{n:,}"` (digit grouping elided; no claim depends
on numeric rendering). -/
def fmtComma (n : Int) : String := toString n

/-- Stand-in for Python `f"{q:.1%}"` (decimal rounding elided; no claim
depends on numeric rendering). -/
def fmtPct (q : ℚ) : String := toString (q * 100) ++ "%"

/-- Python `repr` of a list of strings, as interpolated by `f"{names}"`:
`[\x27a\x27, \x27b\x27]`. -/
def pyStrList (l : List String) : String :=
  "[" ++ String.intercalate ", " (l.map (fun s => "\x27" ++ s ++ "\x27")) ++ "]"

/-- Insert a string into a (sorted) list, keeping lexicographic order. -/
def insertSorted (x : String) : List String → List String
  | [] => [x]
  | y :: ys => if x ≤ y then x :: y :: ys else y :: insertSorted x ys

/-- Python `sorted` on a list of strings (insertion sort, ascending). -/
def sortStrs (l : List String) : List String :=
  l.foldr insertSorted []

/-- Python `sorted(set(xs) - set(ys))`: the distinct members of `xs` not in
`ys`, in ascending order. -/
def pySetDiff (xs ys : List String) : List String :=
  sortStrs ((xs.dedup).filter (fun x => !(ys.contains x)))

/-- The columns `check_null_rate` iterates over (`gaya/checks/completeness.py`):
`[stats.column(name) for name in config.columns] if config.columns else
list(stats.columns)` — a `None` or empty `columns` is falsy, so both select
all columns. -/
def colsToCheck (stats : TableStats) (config : NullConfig) : List (Option ColumnStats) :=
  match config.columns with
  | some names => if names = [] then stats.columns.map some else names.map stats.column
  | none       => stats.columns.map some

/-- The body of `check_null_rate`'s per-column loop
(`gaya/checks/completeness.py`). -/
def nullRateResult (stats : TableStats) (config : NullConfig) :
    Option ColumnStats → CheckResult
  | none =>
      { check   := "null_rate"
        table   := stats.table_name
        layer   := stats.layer
        status  := .FAIL
        message := "Column specified in null check does not exist in table."
        column  := some "unknown"
        hint    := some "Check your gaya.yml — column name may be misspelled." }
  | some col =>
      let pct := col.null_pct
      if pct = 0 then
        { check   := "null_rate"
          table   := stats.table_name
          layer   := stats.layer
          status  := .PASS
          message := "\x27" ++ col.name ++ "\x27 has no nulls."
          column  := some col.name
          actual  := some (.rat 0) }
      else if pct ≥ config.fail_pct then
        { check    := "null_rate"
          table    := stats.table_name
          layer    := stats.layer
          status   := .FAIL
          message  := "\x27" ++ col.name ++ "\x27 is " ++ fmtPct pct ++
                      " null — exceeds fail threshold of " ++ fmtPct config.fail_pct ++ "."
          column   := some col.name
          expected := some (.str ("< " ++ fmtPct config.fail_pct))
          actual   := some (.str (fmtPct pct)) }
      else if pct ≥ config.warn_pct then
        { check    := "null_rate"
          table    := stats.table_name
          layer    := stats.layer
          status   := .WARN
          message  := "\x27" ++ col.name ++ "\x27 is " ++ fmtPct pct ++
                      " null — above warn threshold of " ++ fmtPct config.warn_pct ++ "."
          column   := some col.name
          expected := some (.str ("< " ++ fmtPct config.warn_pct))
          actual   := some (.str (fmtPct pct)) }
      else
        { check   := "null_rate"
          table   := stats.table_name
          layer   := stats.layer
          status  := .PASS
          message := "\x27" ++ col.name ++ "\x27 null rate " ++ fmtPct pct ++
                     " is within threshold."
          column  := some col.name
          actual  := some (.str (fmtPct pct)) }

/-- Source `check_null_rate` from `gaya/checks/completeness.py`. -/
def check_null_rate (stats : TableStats) (config : NullConfig) : List CheckResult :=
  (colsToCheck stats config).map (nullRateResult stats config)

/-- The body of `check_required_columns`'s per-column loop
(`gaya/checks/completeness.py`). -/
def requiredResult (stats : TableStats) (col_name : String) : CheckResult :=
  match stats.column col_name with
  | none =>
      { check   := "required_columns"
        table   := stats.table_name
        layer   := stats.layer
        status  := .FAIL
        message := "Required column \x27" ++ col_name ++
                   "\x27 is missing from the table entirely."
        column  := some col_name
        hint    := some "Verify the column exists in the source and hasn\x27t been renamed." }
  | some col =>
      if col.null_count > 0 then
        { check    := "required_columns"
          table    := stats.table_name
          layer    := stats.layer
          status   := .FAIL
          message  := "Required column \x27" ++ col_name ++ "\x27 has " ++
                      fmtComma col.null_count ++ " null(s) (" ++ fmtPct col.null_pct ++
                      " of " ++ fmtComma stats.row_count ++ " rows)."
          column   := some col_name
          expected := some (.int 0)
          actual   := some (.int col.null_count)
          hint     := some "This column is marked required — nulls here indicate an upstream issue." }
      else
        { check   := "required_columns"
          table   := stats.table_name
          layer   := stats.layer
          status  := .PASS
          message := "Required column \x27" ++ col_name ++ "\x27 is complete."
          column  := some col_name }

/-- Source `check_required_columns` from `gaya/checks/completeness.py`. -/
def check_required_columns (stats : TableStats) (config : RequiredConfig) :
    List CheckResult :=
  config.columns.map (requiredResult stats)

/-- Source `check_unique` from `gaya/checks/uniqueness.py`. -/
def check_unique (stats : TableStats) (config : UniqueConfig) : List CheckResult :=
  if config.columns.length = 1 then
    let col_name := config.columns.headI
    match stats.column col_name with
    | none =>
        [{ check   := "unique"
           table   := stats.table_name
           layer   := stats.layer
           status  := .FAIL
           message := "Column \x27" ++ col_name ++
                      "\x27 specified for uniqueness check does not exist."
           column  := some col_name
           hint    := some "Check your gaya.yml for a misspelled column name." }]
    | some col =>
        let duplicates := col.row_count - col.distinct_count
        if duplicates > 0 then
          [{ check    := "unique"
             table    := stats.table_name
             layer    := stats.layer
             status   := .FAIL
             message  := "\x27" ++ col_name ++ "\x27 has " ++ fmtComma duplicates ++
                         " duplicate value(s) across " ++ fmtComma col.row_count ++
                         " rows (" ++ fmtComma col.distinct_count ++ " distinct)."
             column   := some col_name
             expected := some (.str "all distinct")
             actual   := some (.str (fmtComma duplicates ++ " duplicates"))
             hint     := some "Duplicates in a key column usually indicate a pipeline loading the same records more than once." }]
        else
          [{ check   := "unique"
             table   := stats.table_name
             layer   := stats.layer
             status  := .PASS
             message := "\x27" ++ col_name ++ "\x27 is fully unique (" ++
                        fmtComma col.distinct_count ++ " distinct values)."
             column  := some col_name }]
  else
    let composite_name := String.intercalate "|" config.columns
    match stats.column composite_name with
    | none =>
        [{ check   := "unique"
           table   := stats.table_name
           layer   := stats.layer
           status  := .FAIL
           message := "Composite key uniqueness check requires columns " ++
                      pyStrList config.columns ++
                      " — one or more are missing from the table."
           column  := some composite_name
           hint    := some "Verify all composite key columns exist in the table." }]
    | some col =>
        let duplicates := col.row_count - col.distinct_count
        if duplicates > 0 then
          [{ check    := "unique"
             table    := stats.table_name
             layer    := stats.layer
             status   := .FAIL
             message  := "Composite key " ++ pyStrList config.columns ++ " has " ++
                         fmtComma duplicates ++ " duplicate combination(s) across " ++
                         fmtComma col.row_count ++ " rows."
             column   := some composite_name
             expected := some (.str "all distinct")
             actual   := some (.str (fmtComma duplicates ++ " duplicate combinations"))
             hint     := some "Composite key duplicates may indicate a missing deduplication step or an unintended cross-join upstream." }]
        else
          [{ check   := "unique"
             table   := stats.table_name
             layer   := stats.layer
             status  := .PASS
             message := "Composite key " ++ pyStrList config.columns ++
                        " is fully unique (" ++ fmtComma col.distinct_count ++
                        " distinct combinations)."
             column  := some composite_name }]

/-- Source `check_row_count` from `gaya/checks/volume.py`. -/
def check_row_count (stats : TableStats) (config : RowCountConfig) : List CheckResult :=
  let count := stats.row_count
  if config.min_rows.isSome ∧ count < config.min_rows.iget then
    [{ check    := "row_count"
       table    := stats.table_name
       layer    := stats.layer
       status   := .FAIL
       message  := "Row count " ++ fmtComma count ++ " is below minimum " ++
                   fmtComma config.min_rows.iget ++ "."
       expected := some (.str (">= " ++ fmtComma config.min_rows.iget))
       actual   := some (.str (fmtComma count))
       hint     := some "The table may not have loaded correctly or the source is empty." }]
  else if config.max_rows.isSome ∧ count > config.max_rows.iget then
    [{ check    := "row_count"
       table    := stats.table_name
       layer    := stats.layer
       status   := .FAIL
       message  := "Row count " ++ fmtComma count ++ " exceeds maximum " ++
                   fmtComma config.max_rows.iget ++ "."
       expected := some (.str ("<= " ++ fmtComma config.max_rows.iget))
       actual   := some (.str (fmtComma count))
       hint     := some "This may indicate duplicate rows or an unintended full reload." }]
  else
    [{ check   := "row_count"
       table   := stats.table_name
       layer   := stats.layer
       status  := .PASS
       message := "Row count " ++ fmtComma count ++ " is within expected range."
       actual  := some (.str (fmtComma count)) }]

/-- Source `check_volume_change` from `gaya/checks/volume.py`. -/
def check_volume_change (stats : TableStats) (config : VolumeChangeConfig)
    (baseline : Option Baseline) : List CheckResult :=
  let current := stats.row_count
  match baseline with
  | none =>
      [{ check   := "volume_change"
         table   := stats.table_name
         layer   := stats.layer
         status  := .PASS
         message := "No baseline found for \x27" ++ stats.table_name ++
                    "\x27. Baseline set at " ++ fmtComma current ++
                    " rows. Run again to detect volume changes."
         actual  := some (.str (fmtComma current)) }]
  | some b =>
      let previous := b.row_count
      let delta := current - previous
      let change_pct : ℚ := (|delta| : ℚ) / (max previous 1 : ℚ)
      let direction := if delta > 0 then "increased" else "dropped"
      let sign := if delta > 0 then "+" else "-"
      let deltaPart := " (" ++ fmtComma previous ++ " → " ++ fmtComma current ++
                       ", " ++ sign ++ fmtComma |delta| ++ " rows)."
      if change_pct ≥ config.fail_pct then
        [{ check    := "volume_change"
           table    := stats.table_name
           layer    := stats.layer
           status   := .FAIL
           message  := "Row count " ++ direction ++ " " ++ fmtPct change_pct ++ deltaPart
           expected := some (.str ("< " ++ fmtPct config.fail_pct ++ " change"))
           actual   := some (.str (fmtPct change_pct ++ " " ++ direction))
           hint     := some (if delta < 0 then
               "A drop this large usually means a failed upstream load or a filter was applied unintentionally."
             else
               "A spike this large may indicate duplicate rows or a full reload.") }]
      else if change_pct ≥ config.warn_pct then
        [{ check    := "volume_change"
           table    := stats.table_name
           layer    := stats.layer
           status   := .WARN
           message  := "Row count " ++ direction ++ " " ++ fmtPct change_pct ++ deltaPart
           expected := some (.str ("< " ++ fmtPct config.warn_pct ++ " change"))
           actual   := some (.str (fmtPct change_pct ++ " " ++ direction)) }]
      else
        [{ check   := "volume_change"
           table   := stats.table_name
           layer   := stats.layer
           status  := .PASS
           message := "Row count stable: " ++ fmtComma previous ++ " → " ++
                      fmtComma current ++ " (" ++ sign ++ fmtComma |delta| ++
                      " rows, " ++ fmtPct change_pct ++ " change)."
           actual  := some (.str (fmtPct change_pct ++ " change")) }]

/-- The body of `check_schema`'s per-pair loop (`gaya/checks/schema.py`). -/
def schemaResult (stats : TableStats) (pair : String × String) : CheckResult :=
  let col_name := pair.1
  let expected_dtype := pair.2
  match dictGet stats.schema col_name with
  | none =>
      { check    := "schema"
        table    := stats.table_name
        layer    := stats.layer
        status   := .FAIL
        message  := "Expected column \x27" ++ col_name ++ "\x27 (" ++ expected_dtype ++
                    ") is missing from the table."
        column   := some col_name
        expected := some (.str expected_dtype)
        hint     := some "Column may have been dropped or renamed upstream." }
  | some actual_dtype =>
      if actual_dtype.toLower ≠ expected_dtype.toLower then
        { check    := "schema"
          table    := stats.table_name
          layer    := stats.layer
          status   := .FAIL
          message  := "\x27" ++ col_name ++ "\x27 type mismatch: expected \x27" ++
                      expected_dtype ++ "\x27, found \x27" ++ actual_dtype ++ "\x27."
          column   := some col_name
          expected := some (.str expected_dtype)
          actual   := some (.str actual_dtype)
          hint     := some "A dtype change can silently break downstream queries. Verify this was intentional." }
      else
        { check    := "schema"
          table    := stats.table_name
          layer    := stats.layer
          status   := .PASS
          message  := "\x27" ++ col_name ++ "\x27 is \x27" ++ actual_dtype ++
                      "\x27 as expected."
          column   := some col_name
          expected := some (.str expected_dtype)
          actual   := some (.str actual_dtype) }

/-- Source `check_schema` from `gaya/checks/schema.py`. -/
def check_schema (stats : TableStats) (config : SchemaConfig) : List CheckResult :=
  config.expected.map (schemaResult stats)

/-- Python `sorted(set(xs))`: distinct members of `xs` in ascending order. -/
def sortedSet (xs : List String) : List String :=
  sortStrs xs.dedup

/-- Source `check_schema_drift` from `gaya/checks/schema.py`.  `added` / `removed`
are the set differences of current column names vs baseline schema keys;
`sorted(...)` renders them in ascending order. -/
def check_schema_drift (stats : TableStats) (_config : SchemaDriftConfig)
    (baseline : Option Baseline) : List CheckResult :=
  let current_cols := stats.column_names
  match baseline with
  | none =>
      [{ check   := "schema_drift"
         table   := stats.table_name
         layer   := stats.layer
         status  := .PASS
         message := "No baseline schema found for \x27" ++ stats.table_name ++
                    "\x27. Schema recorded with " ++
                    toString current_cols.dedup.length ++
                    " columns. Run again to detect drift."
         actual  := some (.strList (sortedSet current_cols)) }]
  | some b =>
      let baseline_cols := dictKeys b.schema
      let added := pySetDiff current_cols baseline_cols
      let removed := pySetDiff baseline_cols current_cols
      if added = [] ∧ removed = [] then
        [{ check   := "schema_drift"
           table   := stats.table_name
           layer   := stats.layer
           status  := .PASS
           message := "Schema unchanged. " ++ toString current_cols.dedup.length ++
                      " columns match baseline." }]
      else
        (if removed ≠ [] then
          [{ check    := "schema_drift"
             table    := stats.table_name
             layer    := stats.layer
             status   := .FAIL
             message  := toString removed.length ++
                         " column(s) removed since last run: " ++
                         pyStrList removed ++ "."
             expected := some (.strList (sortedSet baseline_cols))
             actual   := some (.strList (sortedSet current_cols))
             hint     := some "Removed columns break downstream SELECT * queries and any explicit column references. Verify this was intentional." }]
         else []) ++
        (if added ≠ [] then
          [{ check    := "schema_drift"
             table    := stats.table_name
             layer    := stats.layer
             status   := .WARN
             message  := toString added.length ++
                         " new column(s) detected since last run: " ++
                         pyStrList added ++ "."
             expected := some (.strList (sortedSet baseline_cols))
             actual   := some (.strList (sortedSet current_cols))
             hint     := some "New columns are usually safe, but verify they\x27re intentional and documented." }]
         else [])

/-!
## Baseline store (`gaya/baseline/store.py`)

The `.gaya/baselines/` directory is modelled as a keyed list of stored
records; `storeGet` reads the record at a key (the file's parsed JSON, or
`malformed` when `json.loads` would raise), `storeSet` replaces the value
at a key.  `load`/`save` below mirror `BaselineStore.load`/`save`.
-/

/-- One on-disk baseline file restricted to the shapes whose errors
`load`'s `try` catches: `malformed` stands for a file `json.loads`
rejects (`JSONDecodeError`, caught); otherwise each JSON field of an
object is present (`some`) or missing (`none`, raising `KeyError` on
`data[...]` access for the four required fields, caught; `run_count` is
read with `data.get("run_count", 1)`).  A file whose bytes are not UTF-8
or whose JSON is not an object is NOT representable here — on those the
source's `load` raises an uncaught `UnicodeDecodeError` / `TypeError`;
`StoredFile` and `loadE` below model that full error path. -/
inductive StoredRecord where
  | malformed
  | record (table_name : Option String) (row_count : Option Int)
           (schema : Option Dict) (run_at : Option String) (run_count : Option Int)
deriving DecidableEq, Repr

/-- The baseline directory: a keyed store of records (lookup takes the
most recent write for a key, so it denotes a key→record map). -/
abbrev StoreState := List (String × StoredRecord)

/-- The record stored at a key, if any (`path.exists()` + read). -/
def storeGet (st : StoreState) (key : String) : Option StoredRecord :=
  (st.find? (fun p => p.1 == key)).map (·.2)

/-- Source `path.write_text(...)`: replace (or create) the record at a key. -/
def storeSet (st : StoreState) (key : String) (r : StoredRecord) : StoreState :=
  (key, r) :: st

namespace BaselineStore

/-- Source `BaselineStore._path`'s filename sanitization:
`table_name.replace(".", "_").replace("/", "_")`. -/
def sanitize (table_name : String) : String :=
  (table_name.replace "." "_").replace "/" "_"

/-- The `try` body of `BaselineStore.load`: build a `Baseline` from a
stored record, `none` when parsing raises (`KeyError` / decode error). -/
def parseRecord : StoredRecord → Option Baseline
  | .malformed => none
  | .record tn rc sch ra rcnt =>
      match tn, rc, sch, ra with
      | some tn, some rc, some sch, some ra =>
          some { table_name := tn, row_count := rc, schema := sch, run_at := ra,
                 run_count := rcnt.getD 1 }
      | _, _, _, _ => none

/-- Source `BaselineStore.load`: `None` on a missing file, `None` on a corrupted
record, the parsed `Baseline` otherwise. -/
def load (st : StoreState) (table_name : String) : Option Baseline :=
  match storeGet st (sanitize table_name) with
  | none => none
  | some r => parseRecord r

/-- Source `_has_changed` from `gaya/baseline/store.py`: row count or schema
mapping (Python `dict` equality) differs. -/
def has_changed (baseline : Baseline) (stats : TableStats) : Bool :=
  baseline.row_count != stats.row_count || !(dictBeq baseline.schema stats.schema)

/-- The JSON object `BaselineStore.save` writes. -/
def mkRecord (stats : TableStats) (run_count : Int) : StoredRecord :=
  .record (some stats.table_name) (some stats.row_count) (some stats.schema)
          (some stats.collected_at) (some run_count)

/-- Source `BaselineStore.save`: conditional write.  Returns (whether a write
occurred, the store afterwards). -/
def save (st : StoreState) (stats : TableStats) : Bool × StoreState :=
  let existing := load st stats.table_name
  match existing with
  | some ex =>
      if !(has_changed ex stats) then
        (false, st)
      else
        (true, storeSet st (sanitize stats.table_name) (mkRecord stats (ex.run_count + 1)))
  | none =>
      (true, storeSet st (sanitize stats.table_name) (mkRecord stats 1))

end BaselineStore

/-!
## The store at the file level, with `load`'s raising behaviour

`BaselineStore.load`'s `try` (`store.py:72-84`) catches only `KeyError`
and `json.JSONDecodeError`.  Two corruption shapes escape it:
`path.read_text(encoding="utf-8")` raises `UnicodeDecodeError` on bytes
that are not UTF-8, and `data["table_name"]` raises `TypeError` when the
file holds valid JSON that is not an object.  `StoredFile` represents
all four shapes and `loadE` returns `Except`, carrying the exception
that would propagate to the caller.
-/

/-- A Python exception class that escapes `BaselineStore.load`'s `try`
(which catches only `KeyError` and `json.JSONDecodeError`). -/
inductive PyError where
  | unicodeDecodeError
  | typeError
deriving DecidableEq, Repr

/-- One on-disk baseline file by the shape `load` meets reading it:
bytes `read_text` rejects (`notUtf8`), text `json.loads` rejects
(`notJson`), valid JSON that is not an object (`jsonNonObject`), or a
JSON object with its fields present or missing (`record`). -/
inductive StoredFile where
  | notUtf8
  | notJson
  | jsonNonObject
  | record (table_name : Option String) (row_count : Option Int)
           (schema : Option Dict) (run_at : Option String) (run_count : Option Int)
deriving DecidableEq, Repr

/-- The baseline directory at the file level: a keyed store of files. -/
abbrev FileStore := List (String × StoredFile)

/-- The file stored at a key, if any. -/
def fileGet (st : FileStore) (key : String) : Option StoredFile :=
  (st.find? (fun p => p.1 == key)).map (·.2)

namespace BaselineStore

/-- The read-and-parse body of `load` on one file: `.error` is an
exception escaping the `try` (`UnicodeDecodeError` from `read_text`,
`TypeError` from indexing a non-object), `.ok none` a caught error
(`JSONDecodeError`, `KeyError`), `.ok (some _)` a parsed baseline. -/
def parseFile : StoredFile → Except PyError (Option Baseline)
  | .notUtf8 => .error .unicodeDecodeError
  | .notJson => .ok none
  | .jsonNonObject => .error .typeError
  | .record tn rc sch ra rcnt => .ok (parseRecord (.record tn rc sch ra rcnt))

/-- Source `BaselineStore.load` over the file-level store, with its
raising behaviour explicit: `.ok none` for a missing file or caught
corruption, `.error e` when an uncaught exception escapes to the caller. -/
def loadE (st : FileStore) (table_name : String) : Except PyError (Option Baseline) :=
  match fileGet st (sanitize table_name) with
  | none => .ok none
  | some f => parseFile f

end BaselineStore

/-- The caught-error fragment of the file level: every `StoredRecord`
state is a `StoredFile` state on which nothing raises. -/
def fileOfRecord : StoredRecord → StoredFile
  | .malformed => .notJson
  | .record tn rc sch ra rcnt => .record tn rc sch ra rcnt

/-!
## Runner (`gaya/runner.py`)
-/

/-- Source `TableConfig` from `gaya/runner.py`. -/
structure TableConfig where
  table  : String
  layer  : String
  source : String
  null      : Option NullConfig         := none
  required  : Option RequiredConfig     := none
  unique    : Option UniqueConfig       := none
  row_count : Option RowCountConfig     := none
  volume    : Option VolumeChangeConfig := none
  schema    : Option SchemaConfig       := none
  drift     : Option SchemaDriftConfig  := none
  run_null_check   : Bool := true
  run_volume_check : Bool := true
  run_drift_check  : Bool := true

/-- Source `RunResult` from `gaya/runner.py`. -/
structure RunResult where
  table   : String
  layer   : String
  results : List CheckResult := []
  baseline_updated : Bool := false
  error   : Option String := none
deriving DecidableEq, Repr

/-- Stage 1 of `Runner.run`: `if config.schema: check_schema(...)`. -/
def schemaStage (stats : TableStats) : Option SchemaConfig → List CheckResult
  | some sc => check_schema stats sc
  | none => []

/-- The default `SchemaDriftConfig` `Runner.run` builds when none is
configured: `tuple(baseline.schema.keys()) if baseline else ()`. -/
def driftDefault : Option Baseline → SchemaDriftConfig
  | some b => { baseline_columns := dictKeys b.schema }
  | none => { baseline_columns := [] }

/-- Stage 2 of `Runner.run`: drift check unless disabled, with the shared
loaded baseline. -/
def driftStage (stats : TableStats) (config : TableConfig)
    (baseline : Option Baseline) : List CheckResult :=
  if config.run_drift_check then
    check_schema_drift stats (config.drift.getD (driftDefault baseline)) baseline
  else []

/-- Stage 3a of `Runner.run`: null check unless disabled. -/
def nullStage (stats : TableStats) (config : TableConfig) : List CheckResult :=
  if config.run_null_check then check_null_rate stats (config.null.getD {}) else []

/-- Stage 3b of `Runner.run`: `if config.required: ...`. -/
def requiredStage (stats : TableStats) : Option RequiredConfig → List CheckResult
  | some rc => check_required_columns stats rc
  | none => []

/-- Stage 4 of `Runner.run`: `if config.unique: ...`. -/
def uniqueStage (stats : TableStats) : Option UniqueConfig → List CheckResult
  | some uc => check_unique stats uc
  | none => []

/-- Stage 5a of `Runner.run`: `if config.row_count: ...`. -/
def rowCountStage (stats : TableStats) : Option RowCountConfig → List CheckResult
  | some rcc => check_row_count stats rcc
  | none => []

/-- Stage 5b of `Runner.run`: volume check unless disabled, with the
shared loaded baseline. -/
def volumeStage (stats : TableStats) (config : TableConfig)
    (baseline : Option Baseline) : List CheckResult :=
  if config.run_volume_check then
    check_volume_change stats (config.volume.getD {}) baseline
  else []

/-- Source `Runner.run` from `gaya/runner.py`: load the baseline once, run the
stages in their fixed order, make the one conditional `save` call last.
Returns (the `RunResult`, the store afterwards). -/
def Runner.run (st : StoreState) (stats : TableStats) (config : TableConfig) :
    RunResult × StoreState :=
  let baseline := BaselineStore.load st stats.table_name
  let r_schema := schemaStage stats config.schema
  let r_drift := driftStage stats config baseline
  let r_null := nullStage stats config
  let r_required := requiredStage stats config.required
  let r_unique := uniqueStage stats config.unique
  let r_row := rowCountStage stats config.row_count
  let r_volume := volumeStage stats config baseline
  let saved := BaselineStore.save st stats
  ({ table := stats.table_name
     layer := stats.layer.value
     results := r_schema ++ r_drift ++ r_null ++ r_required ++ r_unique ++ r_row ++ r_volume
     baseline_updated := saved.1 }, saved.2)

/-!
## Helper lemmas
-/

/-- A key outside a dict's keys looks up to `none`. -/
theorem dictGet_eq_none_of_not_mem (d : Dict) (k : String) (h : k ∉ dictKeys d) :
    dictGet d k = none := by
  have hfind : d.find? (fun p => p.1 == k) = none := by
    rw [List.find?_eq_none]
    intro p hp hbeq
    exact h (List.mem_map.mpr ⟨p, hp, by simpa using hbeq⟩)
  simp [dictGet, hfind]

/-- Source `dictBeq` decides map-extensional equality of two dicts. -/
theorem dictBeq_iff (a b : Dict) :
    dictBeq a b = true ↔ ∀ k, dictGet a k = dictGet b k := by
  unfold dictBeq
  rw [List.all_eq_true]
  constructor
  · intro h k
    by_cases ha : k ∈ dictKeys a
    · simpa using h k (List.mem_append.mpr (Or.inl ha))
    · by_cases hb : k ∈ dictKeys b
      · simpa using h k (List.mem_append.mpr (Or.inr hb))
      · rw [dictGet_eq_none_of_not_mem a k ha, dictGet_eq_none_of_not_mem b k hb]
  · intro h k _
    simpa using h k

/-- Source `dictBeq` is reflexive. -/
theorem dictBeq_self (a : Dict) : dictBeq a a = true :=
  (dictBeq_iff a a).mpr (fun _ => rfl)

/-- Membership in an insertion step. -/
theorem mem_insertSorted {x y : String} {l : List String} :
    y ∈ insertSorted x l ↔ y = x ∨ y ∈ l := by
  induction l with
  | nil => simp [insertSorted]
  | cons z zs ih =>
    unfold insertSorted
    by_cases h : x ≤ z
    · simp [h]
    · simp only [h, if_false, List.mem_cons, ih]
      tauto

/-- Inserting into an ascending list keeps it ascending. -/
theorem pairwise_insertSorted {x : String} {l : List String}
    (h : l.Pairwise (· ≤ ·)) : (insertSorted x l).Pairwise (· ≤ ·) := by
  induction l with
  | nil => simp [insertSorted]
  | cons z zs ih =>
    rcases List.pairwise_cons.mp h with ⟨hz, hzs⟩
    unfold insertSorted
    by_cases hxz : x ≤ z
    · rw [if_pos hxz]
      refine List.pairwise_cons.mpr ⟨?_, h⟩
      intro y hy
      rcases List.mem_cons.mp hy with rfl | hy
      · exact hxz
      · exact le_trans hxz (hz y hy)
    · rw [if_neg hxz]
      refine List.pairwise_cons.mpr ⟨?_, ih hzs⟩
      intro y hy
      rcases mem_insertSorted.mp hy with rfl | hy
      · exact le_of_not_le hxz
      · exact hz y hy

/-- Source `sortStrs` is a permutation-free membership preserver. -/
theorem mem_sortStrs {x : String} {l : List String} :
    x ∈ sortStrs l ↔ x ∈ l := by
  induction l with
  | nil => simp [sortStrs]
  | cons y ys ih =>
    show x ∈ insertSorted y (sortStrs ys) ↔ _
    rw [mem_insertSorted, ih]
    simp

/-- Source `sortStrs` returns an ascending list. -/
theorem sortStrs_pairwise (l : List String) :
    (sortStrs l).Pairwise (· ≤ ·) := by
  induction l with
  | nil => simp [sortStrs]
  | cons y ys ih => exact pairwise_insertSorted ih

/-- Source `pySetDiff xs ys` holds exactly the members of `xs` that are not
members of `ys`. -/
theorem mem_pySetDiff {x : String} {xs ys : List String} :
    x ∈ pySetDiff xs ys ↔ x ∈ xs ∧ x ∉ ys := by
  unfold pySetDiff
  rw [mem_sortStrs]
  simp

/-- Source `pySetDiff` returns an ascending list. -/
theorem pySetDiff_pairwise (xs ys : List String) :
    (pySetDiff xs ys).Pairwise (· ≤ ·) :=
  sortStrs_pairwise _

/-!
## Concrete fixtures (used by witnesses and counterexamples)
-/

/-- A fully distinct key column, as in the repository's test fixtures. -/
def exColumnId : ColumnStats :=
  { name := "order_id", dtype := "int", row_count := 1000,
    null_count := 0, distinct_count := 1000 }

/-- A column that is 12% null, as in the repository's test fixtures. -/
def exColumnEmail : ColumnStats :=
  { name := "email", dtype := "string", row_count := 1000,
    null_count := 120, distinct_count := 880 }

/-- A small concrete table. -/
def exStats : TableStats :=
  { table_name := "orders", layer := .STAGING, row_count := 1000,
    columns := [exColumnId, exColumnEmail],
    schema := [("order_id", "int"), ("email", "string")],
    collected_at := "2026-02-19T10:00:00+00:00" }

/-- A null-rate configuration naming a column the table does not have. -/
def ghostConfig : NullConfig := { columns := some ["ghost_col"] }

/-!
## Claim theorems
-/

/-- **C4.** For every `NullConfig` with `fail_pct > warn_pct ≥ 0` and every
column the check resolves (at position `i` of its iteration),
`check_null_rate` emits at position `i` a result for that column whose
status is PASS when the column's `null_pct` is exactly 0 (this case is
tested first, regardless of thresholds), FAIL when `null_pct ≥ fail_pct`
(the fail threshold is tested before the warn threshold), WARN when
`warn_pct ≤ null_pct < fail_pct` (outside the 0 case, which the claim gives
priority), and PASS when `null_pct < warn_pct`; and `null_pct` is
`null_count / row_count`, or 0 when `row_count = 0`. -/
theorem check_null_rate_classification
    (stats : TableStats) (config : NullConfig) (i : ℕ) (col : ColumnStats)
    (h0 : 0 ≤ config.warn_pct) (hwf : config.warn_pct < config.fail_pct)
    (hcol : (colsToCheck stats config).get? i = some (some col)) :
    ∃ r, (check_null_rate stats config).get? i = some r ∧
      r.column = some col.name ∧
      col.null_pct =
        (if col.row_count = 0 then 0 else (col.null_count : ℚ) / (col.row_count : ℚ)) ∧
      (col.null_pct = 0 → r.status = .PASS) ∧
      (config.fail_pct ≤ col.null_pct → r.status = .FAIL) ∧
      (col.null_pct ≠ 0 → config.warn_pct ≤ col.null_pct →
        col.null_pct < config.fail_pct → r.status = .WARN) ∧
      (col.null_pct < config.warn_pct → r.status = .PASS) := by
  refine ⟨nullRateResult stats config (some col), ?_, ?_, rfl, ?_, ?_, ?_, ?_⟩
  · unfold check_null_rate
    rw [List.get?_map, hcol]
    rfl
  · simp only [nullRateResult]
    split_ifs <;> rfl
  · intro hz
    simp [nullRateResult, hz]
  · intro hf
    have hz : col.null_pct ≠ 0 :=
      ne_of_gt (lt_of_lt_of_le (lt_of_le_of_lt h0 hwf) hf)
    simp [nullRateResult, hz, ge_iff_le, hf]
  · intro hz hw hf
    have hnf : ¬ (config.fail_pct ≤ col.null_pct) := not_le.mpr hf
    simp [nullRateResult, hz, ge_iff_le, hnf, hw]
  · intro hp
    by_cases hz : col.null_pct = 0
    · simp [nullRateResult, hz]
    · have hnw : ¬ (config.warn_pct ≤ col.null_pct) := not_le.mpr hp
      have hnf : ¬ (config.fail_pct ≤ col.null_pct) :=
        not_le.mpr (lt_trans hp hwf)
      simp [nullRateResult, hz, ge_iff_le, hnf, hnw]

/-- Witness for C4: the 12%-null column of `exStats` under the default
thresholds (10% warn, 25% fail) at position 1 of the iteration. -/
theorem check_null_rate_classification_witness :
    ∃ r, (check_null_rate exStats {}).get? 1 = some r ∧
      r.column = some exColumnEmail.name ∧
      exColumnEmail.null_pct =
        (if exColumnEmail.row_count = 0 then 0
         else (exColumnEmail.null_count : ℚ) / (exColumnEmail.row_count : ℚ)) ∧
      (exColumnEmail.null_pct = 0 → r.status = .PASS) ∧
      ((25 / 100 : ℚ) ≤ exColumnEmail.null_pct → r.status = .FAIL) ∧
      (exColumnEmail.null_pct ≠ 0 → (10 / 100 : ℚ) ≤ exColumnEmail.null_pct →
        exColumnEmail.null_pct < (25 / 100 : ℚ) → r.status = .WARN) ∧
      (exColumnEmail.null_pct < (10 / 100 : ℚ) → r.status = .PASS) :=
  check_null_rate_classification exStats {} 1 exColumnEmail
    (by norm_num) (by norm_num) rfl

/-- **C10.** An explicitly empty configured column tuple is falsy in the
source's conditional, so it selects all table columns exactly as a `None`
configuration does — one result per table column, not an empty list. -/
theorem check_null_rate_empty_columns (stats : TableStats) (warn fail_ : ℚ) :
    check_null_rate stats { columns := some [], warn_pct := warn, fail_pct := fail_ } =
      check_null_rate stats { columns := none, warn_pct := warn, fail_pct := fail_ } ∧
    (check_null_rate stats
        { columns := some [], warn_pct := warn, fail_pct := fail_ }).length =
      stats.columns.length := by
  constructor
  · rfl
  · simp [check_null_rate, colsToCheck]

/-- Counterexample to **C9** as stated: for the table `exStats` (columns
`order_id`, `email`) and a null check configured for the absent column
`ghost_col`, the emitted FAIL result's `column` field is the constant
`"unknown"`, not the configured name `"ghost_col"`. -/
theorem null_rate_unknown_column_counterexample :
    (check_null_rate exStats ghostConfig).map (fun r => r.column) = [some "unknown"] ∧
    ¬ ((check_null_rate exStats ghostConfig).map (fun r => r.column) =
        [some "ghost_col"]) := by
  constructor
  · rfl
  · decide

/-- **C9 (amended).** For every `NullConfig` whose configured column subset
contains a name that does not resolve against the supplied `TableStats`,
`check_null_rate` emits for that name (at its input position) a FAIL
result — never an exception — whose `column` field is the constant
`"unknown"` and whose message states the column does not exist; one result
is produced per configured name, preserving input order. -/
theorem check_null_rate_missing_column
    (stats : TableStats) (config : NullConfig) (names : List String)
    (i : ℕ) (name : String)
    (hc : config.columns = some names)
    (hi : names.get? i = some name)
    (hmiss : stats.column name = none) :
    (check_null_rate stats config).length = names.length ∧
    (check_null_rate stats config).get? i = some
      { check := "null_rate", table := stats.table_name, layer := stats.layer,
        status := .FAIL,
        message := "Column specified in null check does not exist in table.",
        column := some "unknown",
        hint := some "Check your gaya.yml — column name may be misspelled." } := by
  have hne : names ≠ [] := by
    intro h
    subst h
    simp at hi
  simp only [check_null_rate, colsToCheck, hc, if_neg hne]
  constructor
  · simp
  · rw [List.get?_map, List.get?_map, hi]
    simp [hmiss, nullRateResult]

/-- Witness for C9 (amended): the configured name `ghost_col` does not
resolve in `exStats`; position 0 carries the constant-`"unknown"` FAIL. -/
theorem check_null_rate_missing_column_witness :
    (check_null_rate exStats ghostConfig).length = ["ghost_col"].length ∧
    (check_null_rate exStats ghostConfig).get? 0 = some
      { check := "null_rate", table := exStats.table_name, layer := exStats.layer,
        status := .FAIL,
        message := "Column specified in null check does not exist in table.",
        column := some "unknown",
        hint := some "Check your gaya.yml — column name may be misspelled." } :=
  check_null_rate_missing_column exStats ghostConfig ["ghost_col"] 0 "ghost_col"
    rfl rfl (by decide)

/-- **C5.** With a single configured column that resolves, `check_unique`
computes `duplicates = row_count − distinct_count` of that column and
returns exactly one result, FAIL if and only if `duplicates > 0` (never
WARN), else PASS; with two or more configured columns it looks up the
synthetic column named by joining the configured names with `|` in the
order given, returns FAIL if that synthetic column is absent, and
otherwise applies the same duplicate formula to the synthetic column. -/
theorem check_unique_spec (stats : TableStats) (config : UniqueConfig) :
    (∀ name col, config.columns = [name] → stats.column name = some col →
      ∃ r, check_unique stats config = [r] ∧
        r.column = some name ∧
        (r.status = .FAIL ↔ col.row_count - col.distinct_count > 0) ∧
        (r.status = .PASS ↔ ¬ (col.row_count - col.distinct_count > 0)) ∧
        r.status ≠ .WARN) ∧
    (2 ≤ config.columns.length →
      (stats.column (String.intercalate "|" config.columns) = none →
        ∃ r, check_unique stats config = [r] ∧ r.status = .FAIL ∧
          r.column = some (String.intercalate "|" config.columns)) ∧
      (∀ col, stats.column (String.intercalate "|" config.columns) = some col →
        ∃ r, check_unique stats config = [r] ∧
          r.column = some (String.intercalate "|" config.columns) ∧
          (r.status = .FAIL ↔ col.row_count - col.distinct_count > 0) ∧
          (r.status = .PASS ↔ ¬ (col.row_count - col.distinct_count > 0)) ∧
          r.status ≠ .WARN)) := by
  constructor
  · intro name col hc hcol
    have hlen : config.columns.length = 1 := by rw [hc]; rfl
    have hhead : config.columns.headI = name := by rw [hc]; rfl
    simp only [check_unique, hlen, if_pos, hhead, hcol]
    by_cases hd : col.row_count - col.distinct_count > 0
    · rw [if_pos hd]
      exact ⟨_, rfl, rfl, by simp [hd], by simp [hd], by simp⟩
    · rw [if_neg hd]
      exact ⟨_, rfl, rfl, by simp [hd], by simp [hd], by simp⟩
  · intro h2
    have hlen : ¬ (config.columns.length = 1) := by omega
    constructor
    · intro hmiss
      simp only [check_unique, if_neg hlen, hmiss]
      exact ⟨_, rfl, rfl, rfl⟩
    · intro col hcol
      simp only [check_unique, if_neg hlen, hcol]
      by_cases hd : col.row_count - col.distinct_count > 0
      · rw [if_pos hd]
        exact ⟨_, rfl, rfl, by simp [hd], by simp [hd], by simp⟩
      · rw [if_neg hd]
        exact ⟨_, rfl, rfl, by simp [hd], by simp [hd], by simp⟩

/-- **C2.** With no baseline, `check_volume_change` returns a single PASS
result regardless of the current row count; with a baseline it computes
`delta = current − previous` and `change_pct = |delta| / max(previous, 1)`
and returns exactly one result whose status is FAIL when
`change_pct ≥ fail_pct`, WARN when `warn_pct ≤ change_pct < fail_pct`, and
PASS otherwise; on a non-PASS result the direction label is `"increased"`
when `delta > 0` and `"dropped"` otherwise. -/
theorem check_volume_change_spec (stats : TableStats) (config : VolumeChangeConfig) :
    (∃ r, check_volume_change stats config none = [r] ∧ r.status = .PASS) ∧
    (∀ b : Baseline,
      ∃ r, check_volume_change stats config (some b) = [r] ∧
        (config.fail_pct ≤ |((stats.row_count - b.row_count : Int) : ℚ)| / (max b.row_count 1 : ℚ) →
          r.status = .FAIL) ∧
        (config.warn_pct ≤ |((stats.row_count - b.row_count : Int) : ℚ)| / (max b.row_count 1 : ℚ) →
          |((stats.row_count - b.row_count : Int) : ℚ)| / (max b.row_count 1 : ℚ) < config.fail_pct →
          r.status = .WARN) ∧
        (|((stats.row_count - b.row_count : Int) : ℚ)| / (max b.row_count 1 : ℚ) < config.warn_pct →
          |((stats.row_count - b.row_count : Int) : ℚ)| / (max b.row_count 1 : ℚ) < config.fail_pct →
          r.status = .PASS) ∧
        (r.status ≠ .PASS → ∃ rest, r.message = "Row count " ++
          (if stats.row_count - b.row_count > 0 then "increased" else "dropped") ++ rest)) := by
  constructor
  · exact ⟨_, rfl, rfl⟩
  · intro b
    simp only [check_volume_change, ge_iff_le]
    by_cases hf : config.fail_pct ≤ |((stats.row_count - b.row_count : Int) : ℚ)| / (max b.row_count 1 : ℚ)
    · rw [if_pos hf]
      refine ⟨_, rfl, fun _ => rfl, ?_, ?_, ?_⟩
      · intro _ hlt
        exact absurd hf (not_le.mpr hlt)
      · intro _ hlt
        exact absurd hf (not_le.mpr hlt)
      · intro _
        refine ⟨" " ++ fmtPct (|((stats.row_count - b.row_count : Int) : ℚ)| / (max b.row_count 1 : ℚ)) ++
          (" (" ++ fmtComma b.row_count ++ " → " ++ fmtComma stats.row_count ++ ", " ++
            (if stats.row_count - b.row_count > 0 then "+" else "-") ++
            fmtComma |stats.row_count - b.row_count| ++ " rows)."), ?_⟩
        simp only [String.append_assoc]
    · rw [if_neg hf]
      by_cases hw : config.warn_pct ≤ |((stats.row_count - b.row_count : Int) : ℚ)| / (max b.row_count 1 : ℚ)
      · rw [if_pos hw]
        refine ⟨_, rfl, fun h => absurd h hf, fun _ _ => rfl, ?_, ?_⟩
        · intro hlt _
          exact absurd hw (not_le.mpr hlt)
        · intro _
          refine ⟨" " ++ fmtPct (|((stats.row_count - b.row_count : Int) : ℚ)| / (max b.row_count 1 : ℚ)) ++
            (" (" ++ fmtComma b.row_count ++ " → " ++ fmtComma stats.row_count ++ ", " ++
              (if stats.row_count - b.row_count > 0 then "+" else "-") ++
              fmtComma |stats.row_count - b.row_count| ++ " rows)."), ?_⟩
          simp only [String.append_assoc]
      · rw [if_neg hw]
        exact ⟨_, rfl, fun h => absurd h hf, fun h _ => absurd h hw,
          fun _ _ => rfl, fun h => absurd rfl h⟩

/-- **C3.** With a baseline present, `check_schema_drift` returns: a single
PASS when the current and baseline column-name sets are equal; one FAIL
listing all removed names (`baseline − current`, ascending) when that set
difference is non-empty; one WARN listing all added names
(`current − baseline`, ascending) when that one is non-empty; and when
both are non-empty, exactly two results with the FAIL before the WARN.
With baseline absent it returns a single PASS for every input. -/
theorem check_schema_drift_cases (stats : TableStats) (config : SchemaDriftConfig) :
    (∃ r, check_schema_drift stats config none = [r] ∧ r.status = .PASS) ∧
    (∀ b : Baseline,
      ((∀ c, c ∈ stats.column_names ↔ c ∈ dictKeys b.schema) →
        ∃ r, check_schema_drift stats config (some b) = [r] ∧ r.status = .PASS) ∧
      (pySetDiff (dictKeys b.schema) stats.column_names ≠ [] →
        pySetDiff stats.column_names (dictKeys b.schema) = [] →
        ∃ r, check_schema_drift stats config (some b) = [r] ∧ r.status = .FAIL ∧
          r.message = toString (pySetDiff (dictKeys b.schema) stats.column_names).length ++
            " column(s) removed since last run: " ++
            pyStrList (pySetDiff (dictKeys b.schema) stats.column_names) ++ "." ∧
          (pySetDiff (dictKeys b.schema) stats.column_names).Pairwise (· ≤ ·) ∧
          (∀ x, x ∈ pySetDiff (dictKeys b.schema) stats.column_names ↔
            x ∈ dictKeys b.schema ∧ x ∉ stats.column_names)) ∧
      (pySetDiff stats.column_names (dictKeys b.schema) ≠ [] →
        pySetDiff (dictKeys b.schema) stats.column_names = [] →
        ∃ r, check_schema_drift stats config (some b) = [r] ∧ r.status = .WARN ∧
          r.message = toString (pySetDiff stats.column_names (dictKeys b.schema)).length ++
            " new column(s) detected since last run: " ++
            pyStrList (pySetDiff stats.column_names (dictKeys b.schema)) ++ "." ∧
          (pySetDiff stats.column_names (dictKeys b.schema)).Pairwise (· ≤ ·) ∧
          (∀ x, x ∈ pySetDiff stats.column_names (dictKeys b.schema) ↔
            x ∈ stats.column_names ∧ x ∉ dictKeys b.schema)) ∧
      (pySetDiff (dictKeys b.schema) stats.column_names ≠ [] →
        pySetDiff stats.column_names (dictKeys b.schema) ≠ [] →
        ∃ rf rw, check_schema_drift stats config (some b) = [rf, rw] ∧
          rf.status = .FAIL ∧ rw.status = .WARN ∧
          rf.message = toString (pySetDiff (dictKeys b.schema) stats.column_names).length ++
            " column(s) removed since last run: " ++
            pyStrList (pySetDiff (dictKeys b.schema) stats.column_names) ++ "." ∧
          rw.message = toString (pySetDiff stats.column_names (dictKeys b.schema)).length ++
            " new column(s) detected since last run: " ++
            pyStrList (pySetDiff stats.column_names (dictKeys b.schema)) ++ ".")) := by
  constructor
  · exact ⟨_, rfl, rfl⟩
  · intro b
    refine ⟨?_, ?_, ?_, ?_⟩
    · intro hset
      have ha : pySetDiff stats.column_names (dictKeys b.schema) = [] :=
        List.eq_nil_iff_forall_not_mem.mpr (fun x hx => by
          rcases mem_pySetDiff.mp hx with ⟨h1, h2⟩
          exact h2 ((hset x).mp h1))
      have hr : pySetDiff (dictKeys b.schema) stats.column_names = [] :=
        List.eq_nil_iff_forall_not_mem.mpr (fun x hx => by
          rcases mem_pySetDiff.mp hx with ⟨h1, h2⟩
          exact h2 ((hset x).mpr h1))
      simp only [check_schema_drift]
      rw [if_pos ⟨ha, hr⟩]
      exact ⟨_, rfl, rfl⟩
    · intro hr ha
      simp only [check_schema_drift]
      rw [if_neg (by simp [hr]), if_pos hr, if_neg (by simp [ha])]
      exact ⟨_, rfl, rfl, rfl, pySetDiff_pairwise _ _, fun x => mem_pySetDiff⟩
    · intro ha hr
      simp only [check_schema_drift]
      rw [if_neg (by simp [ha]), if_neg (by simp [hr]), if_pos ha]
      exact ⟨_, rfl, rfl, rfl, pySetDiff_pairwise _ _, fun x => mem_pySetDiff⟩
    · intro hr ha
      simp only [check_schema_drift]
      rw [if_neg (by simp [hr]), if_pos hr, if_pos ha]
      exact ⟨_, _, rfl, rfl, rfl, rfl, rfl⟩

/-- Reading back the key just written returns the new record. -/
theorem storeGet_storeSet (st : StoreState) (key : String) (r : StoredRecord) :
    storeGet (storeSet st key r) key = some r := by
  simp [storeGet, storeSet]

/-- Source `_has_changed` holds exactly when the row count differs or the
schema mappings differ extensionally. -/
theorem has_changed_iff (b : Baseline) (stats : TableStats) :
    BaselineStore.has_changed b stats = true ↔
      b.row_count ≠ stats.row_count ∨
      ¬ (∀ k, dictGet b.schema k = dictGet stats.schema k) := by
  unfold BaselineStore.has_changed
  simp only [Bool.or_eq_true, bne_iff_ne, Bool.not_eq_true']
  exact or_congr Iff.rfl (Bool.eq_false_iff.trans (not_congr (dictBeq_iff _ _)))

/-- Source `save` unfolded over the three outcomes of the prior load. -/
theorem save_eq (st : StoreState) (stats : TableStats) :
    BaselineStore.save st stats =
      match BaselineStore.load st stats.table_name with
      | none => (true, storeSet st (BaselineStore.sanitize stats.table_name)
          (BaselineStore.mkRecord stats 1))
      | some ex =>
          if BaselineStore.has_changed ex stats then
            (true, storeSet st (BaselineStore.sanitize stats.table_name)
              (BaselineStore.mkRecord stats (ex.run_count + 1)))
          else (false, st) := by
  unfold BaselineStore.save
  rcases BaselineStore.load st stats.table_name with _ | ex
  · rfl
  · by_cases hch : BaselineStore.has_changed ex stats
    · simp [hch]
    · simp [hch]

/-- Loading the table a record was just written for parses it back. -/
theorem load_storeSet_mkRecord (st : StoreState) (stats : TableStats) (n : Int) :
    BaselineStore.load
      (storeSet st (BaselineStore.sanitize stats.table_name)
        (BaselineStore.mkRecord stats n)) stats.table_name =
      some { table_name := stats.table_name, row_count := stats.row_count,
             schema := stats.schema, run_at := stats.collected_at, run_count := n } := by
  unfold BaselineStore.load
  rw [storeGet_storeSet]
  rfl

/-- **C1.** `save` writes a new baseline if and only if no baseline loads
for `stats.table_name` or the stored baseline differs from `stats` in
`row_count` or in the schema mapping (map-extensional equality of the
key→type association); on a write the persisted `run_count` is the prior
baseline's `run_count + 1`, or 1 when there was none; `save` returns
`true` exactly on a write, and leaves the store untouched otherwise. -/
theorem save_conditional_write (st : StoreState) (stats : TableStats) :
    ((BaselineStore.save st stats).1 = true ↔
      BaselineStore.load st stats.table_name = none ∨
      ∃ b, BaselineStore.load st stats.table_name = some b ∧
        (b.row_count ≠ stats.row_count ∨
          ¬ (∀ k, dictGet b.schema k = dictGet stats.schema k))) ∧
    ((BaselineStore.save st stats).1 = true →
      BaselineStore.load (BaselineStore.save st stats).2 stats.table_name = some
        { table_name := stats.table_name, row_count := stats.row_count,
          schema := stats.schema, run_at := stats.collected_at,
          run_count := match BaselineStore.load st stats.table_name with
            | some b => b.run_count + 1
            | none => 1 }) ∧
    ((BaselineStore.save st stats).1 = false →
      (BaselineStore.save st stats).2 = st) := by
  rcases h : BaselineStore.load st stats.table_name with _ | b
  · refine ⟨?_, ?_, ?_⟩
    · rw [save_eq, h]
      simp
    · intro _
      rw [save_eq, h]
      exact load_storeSet_mkRecord st stats 1
    · intro hfalse
      rw [save_eq, h] at hfalse
      simp at hfalse
  · by_cases hch : BaselineStore.has_changed b stats
    · refine ⟨?_, ?_, ?_⟩
      · rw [save_eq, h]
        simp only [if_pos hch]
        exact iff_of_true (by trivial) (Or.inr ⟨b, rfl, (has_changed_iff b stats).mp hch⟩)
      · intro _
        rw [save_eq, h]
        simp only [if_pos hch]
        exact load_storeSet_mkRecord st stats (b.run_count + 1)
      · intro hfalse
        rw [save_eq, h] at hfalse
        simp [if_pos hch] at hfalse
    · refine ⟨?_, ?_, ?_⟩
      · rw [save_eq, h]
        simp only [if_neg hch]
        constructor
        · intro hfalse
          simp at hfalse
        · rintro (hnone | ⟨b', hb', hdiff⟩)
          · simp at hnone
          · rw [Option.some.injEq] at hb'
            subst hb'
            exact absurd ((has_changed_iff b stats).mpr hdiff) hch
      · intro htrue
        rw [save_eq, h] at htrue
        simp [if_neg hch] at htrue
      · intro _
        rw [save_eq, h]
        simp [if_neg hch]

/-- Over the caught-error fragment (`StoredRecord` states), a missing
record and a caught-corrupted (undecodable or field-missing) record both
resolve to absence, and after such an absence a `save` for that table
succeeds, writes, and persists `run_count = 1` as on a first write.
This is the true part of the never-raises contract; `load_error_paths`
below shows the two file shapes on which the source's `load` raises
instead. -/
theorem load_never_fails (st : StoreState) (t : String) (stats : TableStats) :
    (storeGet st (BaselineStore.sanitize t) = none → BaselineStore.load st t = none) ∧
    (storeGet st (BaselineStore.sanitize t) = some .malformed →
      BaselineStore.load st t = none) ∧
    (∀ r, storeGet st (BaselineStore.sanitize t) = some r →
      BaselineStore.parseRecord r = none → BaselineStore.load st t = none) ∧
    (BaselineStore.load st stats.table_name = none →
      (BaselineStore.save st stats).1 = true ∧
      BaselineStore.load (BaselineStore.save st stats).2 stats.table_name = some
        { table_name := stats.table_name, row_count := stats.row_count,
          schema := stats.schema, run_at := stats.collected_at, run_count := 1 }) := by
  refine ⟨?_, ?_, ?_, ?_⟩
  · intro h
    simp [BaselineStore.load, h]
  · intro h
    simp [BaselineStore.load, h, BaselineStore.parseRecord]
  · intro r h hp
    simp [BaselineStore.load, h, hp]
  · intro h
    rw [save_eq, h]
    exact ⟨rfl, load_storeSet_mkRecord st stats 1⟩

/-- **C8.** `save` is idempotent under no change: starting from a store
with no baseline for the table, a first `save` returns `true` and persists
`run_count = 1`; a second `save` with the same table name, the same
`row_count` and a map-equal schema returns `false` and leaves the store —
including the stored `run_count` — unchanged. -/
theorem save_idempotent (st : StoreState) (stats stats2 : TableStats)
    (h0 : BaselineStore.load st stats.table_name = none)
    (ht : stats2.table_name = stats.table_name)
    (hr : stats2.row_count = stats.row_count)
    (hs : ∀ k, dictGet stats2.schema k = dictGet stats.schema k) :
    (BaselineStore.save st stats).1 = true ∧
    BaselineStore.load (BaselineStore.save st stats).2 stats.table_name = some
      { table_name := stats.table_name, row_count := stats.row_count,
        schema := stats.schema, run_at := stats.collected_at, run_count := 1 } ∧
    (BaselineStore.save (BaselineStore.save st stats).2 stats2).1 = false ∧
    (BaselineStore.save (BaselineStore.save st stats).2 stats2).2 =
      (BaselineStore.save st stats).2 := by
  have hload : BaselineStore.load (BaselineStore.save st stats).2 stats2.table_name =
      some { table_name := stats.table_name, row_count := stats.row_count,
             schema := stats.schema, run_at := stats.collected_at, run_count := 1 } := by
    rw [save_eq, h0, ht]
    exact load_storeSet_mkRecord st stats 1
  have hnch : ¬ BaselineStore.has_changed
      { table_name := stats.table_name, row_count := stats.row_count,
        schema := stats.schema, run_at := stats.collected_at, run_count := 1 } stats2 := by
    rw [has_changed_iff]
    push_neg
    exact ⟨hr.symm, fun k => (hs k).symm⟩
  refine ⟨?_, ?_, ?_, ?_⟩
  · rw [save_eq, h0]
  · rw [save_eq, h0]
    exact load_storeSet_mkRecord st stats 1
  · rw [save_eq, hload]
    simp [hnch]
  · rw [save_eq, hload]
    simp [hnch]

/-- Witness for C8: two saves of the same statistics into an empty store. -/
theorem save_idempotent_witness :
    (BaselineStore.save [] exStats).1 = true ∧
    BaselineStore.load (BaselineStore.save [] exStats).2 exStats.table_name = some
      { table_name := exStats.table_name, row_count := exStats.row_count,
        schema := exStats.schema, run_at := exStats.collected_at, run_count := 1 } ∧
    (BaselineStore.save (BaselineStore.save [] exStats).2 exStats).1 = false ∧
    (BaselineStore.save (BaselineStore.save [] exStats).2 exStats).2 =
      (BaselineStore.save [] exStats).2 :=
  save_idempotent [] exStats exStats rfl rfl rfl (fun _ => rfl)

/-- On the caught-error fragment, the file-level `loadE` agrees with the
record-level `load`: it returns `.ok` of exactly what `load` returns, so
the record-level store theorems describe every non-raising state. -/
theorem loadE_extends_load (st : StoreState) (t : String) :
    BaselineStore.loadE (st.map (fun p => (p.1, fileOfRecord p.2))) t =
      Except.ok (BaselineStore.load st t) := by
  unfold BaselineStore.loadE BaselineStore.load fileGet storeGet
  induction st with
  | nil => rfl
  | cons p ps ih =>
      simp only [List.map_cons, List.find?_cons]
      by_cases hp : (p.1 == BaselineStore.sanitize t) = true
      · simp only [hp, if_true]
        rcases p with ⟨k, r⟩
        cases r <;> rfl
      · simp only [hp, if_false]
        exact ih

/-- **C7 (code_bug).** The claim's never-raises contract fails on two
file shapes: a baseline file holding valid JSON that is not an object
makes `load` raise an uncaught `TypeError` (at `data["table_name"]`),
and a file whose bytes are not UTF-8 makes it raise an uncaught
`UnicodeDecodeError` (in `read_text`) — the `try` catches only
`KeyError` and `JSONDecodeError`.  The caught shapes (undecodable JSON
text, missing file) do resolve to absence as the claim states. -/
theorem load_error_paths :
    BaselineStore.loadE [(BaselineStore.sanitize "orders", .jsonNonObject)] "orders" =
      .error .typeError ∧
    BaselineStore.loadE [(BaselineStore.sanitize "orders", .notUtf8)] "orders" =
      .error .unicodeDecodeError ∧
    BaselineStore.loadE [(BaselineStore.sanitize "orders", .notJson)] "orders" =
      .ok none ∧
    BaselineStore.loadE [] "orders" = .ok none := by
  refine ⟨?_, ?_, ?_, rfl⟩ <;>
    simp [BaselineStore.loadE, fileGet, BaselineStore.parseFile]

/-- Every result of `check_schema` carries the check id `"schema"`. -/
theorem check_schema_check_name (stats : TableStats) (c : SchemaConfig) :
    ∀ r ∈ check_schema stats c, r.check = "schema" := by
  intro r hr
  rcases List.mem_map.mp hr with ⟨p, _, rfl⟩
  simp only [schemaResult]
  cases h : dictGet stats.schema p.1 with
  | none => simp [h]
  | some d =>
      simp only [h]
      split_ifs <;> rfl

/-- Every result of `check_schema_drift` carries `"schema_drift"`. -/
theorem check_schema_drift_check_name (stats : TableStats) (c : SchemaDriftConfig)
    (bl : Option Baseline) :
    ∀ r ∈ check_schema_drift stats c bl, r.check = "schema_drift" := by
  intro r hr
  rcases bl with _ | b
  · simp only [check_schema_drift, List.mem_singleton] at hr
    subst hr
    rfl
  · simp only [check_schema_drift] at hr
    by_cases hc : pySetDiff stats.column_names (dictKeys b.schema) = [] ∧
        pySetDiff (dictKeys b.schema) stats.column_names = []
    · rw [if_pos hc] at hr
      simp at hr
      subst hr
      rfl
    · rw [if_neg hc] at hr
      rcases List.mem_append.mp hr with h1 | h2
      · by_cases hrem : pySetDiff (dictKeys b.schema) stats.column_names ≠ []
        · rw [if_pos hrem] at h1
          simp at h1
          subst h1
          rfl
        · rw [if_neg hrem] at h1
          simp at h1
      · by_cases hadd : pySetDiff stats.column_names (dictKeys b.schema) ≠ []
        · rw [if_pos hadd] at h2
          simp at h2
          subst h2
          rfl
        · rw [if_neg hadd] at h2
          simp at h2

/-- Every result of `check_null_rate` carries `"null_rate"`. -/
theorem check_null_rate_check_name (stats : TableStats) (c : NullConfig) :
    ∀ r ∈ check_null_rate stats c, r.check = "null_rate" := by
  intro r hr
  rcases List.mem_map.mp hr with ⟨oc, _, rfl⟩
  rcases oc with _ | col
  · rfl
  · simp only [nullRateResult]
    split_ifs <;> rfl

/-- Every result of `check_required_columns` carries `"required_columns"`. -/
theorem check_required_columns_check_name (stats : TableStats) (c : RequiredConfig) :
    ∀ r ∈ check_required_columns stats c, r.check = "required_columns" := by
  intro r hr
  rcases List.mem_map.mp hr with ⟨n, _, rfl⟩
  simp only [requiredResult]
  cases h : stats.column n with
  | none => simp [h]
  | some col =>
      simp only [h]
      split_ifs <;> rfl

/-- Every result of `check_unique` carries `"unique"`. -/
theorem check_unique_check_name (stats : TableStats) (c : UniqueConfig) :
    ∀ r ∈ check_unique stats c, r.check = "unique" := by
  intro r hr
  unfold check_unique at hr
  by_cases hl : c.columns.length = 1
  · simp only [if_pos hl] at hr
    cases h : stats.column c.columns.headI with
    | none =>
        simp only [h, List.mem_singleton] at hr
        subst hr
        rfl
    | some col =>
        simp only [h] at hr
        by_cases hd : col.row_count - col.distinct_count > 0
        · rw [if_pos hd] at hr
          simp at hr
          subst hr
          rfl
        · rw [if_neg hd] at hr
          simp at hr
          subst hr
          rfl
  · simp only [if_neg hl] at hr
    cases h : stats.column (String.intercalate "|" c.columns) with
    | none =>
        simp only [h, List.mem_singleton] at hr
        subst hr
        rfl
    | some col =>
        simp only [h] at hr
        by_cases hd : col.row_count - col.distinct_count > 0
        · rw [if_pos hd] at hr
          simp at hr
          subst hr
          rfl
        · rw [if_neg hd] at hr
          simp at hr
          subst hr
          rfl

/-- Every result of `check_row_count` carries `"row_count"`. -/
theorem check_row_count_check_name (stats : TableStats) (c : RowCountConfig) :
    ∀ r ∈ check_row_count stats c, r.check = "row_count" := by
  intro r hr
  simp only [check_row_count] at hr
  split_ifs at hr <;> (simp at hr; subst hr; rfl)

/-- Every result of `check_volume_change` carries `"volume_change"`. -/
theorem check_volume_change_check_name (stats : TableStats) (c : VolumeChangeConfig)
    (bl : Option Baseline) :
    ∀ r ∈ check_volume_change stats c bl, r.check = "volume_change" := by
  intro r hr
  rcases bl with _ | b
  · simp only [check_volume_change, List.mem_singleton] at hr
    subst hr
    rfl
  · simp only [check_volume_change] at hr
    split_ifs at hr <;> (simp at hr; subst hr; rfl)

/-- Position of each check id in the runner's fixed stage sequence. -/
def stageIdx : String → ℕ
  | "schema" => 0
  | "schema_drift" => 1
  | "null_rate" => 2
  | "required_columns" => 3
  | "unique" => 4
  | "row_count" => 5
  | _ => 6

/-- Results ordered by the runner's fixed stage sequence. -/
def stageLe (a b : CheckResult) : Prop :=
  stageIdx a.check ≤ stageIdx b.check

/-- A block whose results all belong to one stage is stage-ordered. -/
theorem pairwise_stage_of_const (k : ℕ) (l : List CheckResult)
    (h : ∀ r ∈ l, stageIdx r.check = k) : l.Pairwise stageLe := by
  induction l with
  | nil => exact List.Pairwise.nil
  | cons x xs ih =>
      refine List.pairwise_cons.mpr ⟨?_, ih (fun r hr => h r (List.mem_cons_of_mem _ hr))⟩
      intro y hy
      unfold stageLe
      rw [h x (List.mem_cons_self _ _), h y (List.mem_cons_of_mem _ hy)]

/-- Seven stage blocks concatenated in stage order are stage-ordered. -/
theorem pairwise_stage_blocks (B0 B1 B2 B3 B4 B5 B6 : List CheckResult)
    (h0 : ∀ r ∈ B0, stageIdx r.check = 0)
    (h1 : ∀ r ∈ B1, stageIdx r.check = 1)
    (h2 : ∀ r ∈ B2, stageIdx r.check = 2)
    (h3 : ∀ r ∈ B3, stageIdx r.check = 3)
    (h4 : ∀ r ∈ B4, stageIdx r.check = 4)
    (h5 : ∀ r ∈ B5, stageIdx r.check = 5)
    (h6 : ∀ r ∈ B6, stageIdx r.check = 6) :
    (B0 ++ (B1 ++ (B2 ++ (B3 ++ (B4 ++ (B5 ++ B6)))))).Pairwise stageLe := by
  have p56 : (B5 ++ B6).Pairwise stageLe :=
    List.pairwise_append.mpr ⟨pairwise_stage_of_const 5 B5 h5,
      pairwise_stage_of_const 6 B6 h6,
      fun a ha b hb => by have := h5 a ha; have := h6 b hb; unfold stageLe; omega⟩
  have m56 : ∀ r ∈ B5 ++ B6, 5 ≤ stageIdx r.check := by
    intro r hr
    rcases List.mem_append.mp hr with h | h
    · have := h5 r h; omega
    · have := h6 r h; omega
  have p456 : (B4 ++ (B5 ++ B6)).Pairwise stageLe :=
    List.pairwise_append.mpr ⟨pairwise_stage_of_const 4 B4 h4, p56,
      fun a ha b hb => by have := h4 a ha; have := m56 b hb; unfold stageLe; omega⟩
  have m456 : ∀ r ∈ B4 ++ (B5 ++ B6), 4 ≤ stageIdx r.check := by
    intro r hr
    rcases List.mem_append.mp hr with h | h
    · have := h4 r h; omega
    · have := m56 r h; omega
  have p3456 : (B3 ++ (B4 ++ (B5 ++ B6))).Pairwise stageLe :=
    List.pairwise_append.mpr ⟨pairwise_stage_of_const 3 B3 h3, p456,
      fun a ha b hb => by have := h3 a ha; have := m456 b hb; unfold stageLe; omega⟩
  have m3456 : ∀ r ∈ B3 ++ (B4 ++ (B5 ++ B6)), 3 ≤ stageIdx r.check := by
    intro r hr
    rcases List.mem_append.mp hr with h | h
    · have := h3 r h; omega
    · have := m456 r h; omega
  have p23456 : (B2 ++ (B3 ++ (B4 ++ (B5 ++ B6)))).Pairwise stageLe :=
    List.pairwise_append.mpr ⟨pairwise_stage_of_const 2 B2 h2, p3456,
      fun a ha b hb => by have := h2 a ha; have := m3456 b hb; unfold stageLe; omega⟩
  have m23456 : ∀ r ∈ B2 ++ (B3 ++ (B4 ++ (B5 ++ B6))), 2 ≤ stageIdx r.check := by
    intro r hr
    rcases List.mem_append.mp hr with h | h
    · have := h2 r h; omega
    · have := m3456 r h; omega
  have p123456 : (B1 ++ (B2 ++ (B3 ++ (B4 ++ (B5 ++ B6))))).Pairwise stageLe :=
    List.pairwise_append.mpr ⟨pairwise_stage_of_const 1 B1 h1, p23456,
      fun a ha b hb => by have := h1 a ha; have := m23456 b hb; unfold stageLe; omega⟩
  have m123456 : ∀ r ∈ B1 ++ (B2 ++ (B3 ++ (B4 ++ (B5 ++ B6)))), 1 ≤ stageIdx r.check := by
    intro r hr
    rcases List.mem_append.mp hr with h | h
    · have := h1 r h; omega
    · have := m23456 r h; omega
  exact List.pairwise_append.mpr ⟨pairwise_stage_of_const 0 B0 h0, p123456,
    fun a ha b hb => by have := h0 a ha; have := m123456 b hb; unfold stageLe; omega⟩

/-- **C6.** `Runner.run` produces a results list that is exactly the
concatenation of the seven stages in the fixed order schema →
schema-drift → null-rate → required-columns → unique → row-count →
volume-change (each contributing only when configured/enabled), where the
drift stage and the volume-change stage both receive the one baseline
loaded from the pre-run store; the results are stage-ordered under
`stageLe`; and exactly one conditional `save` is applied to the pre-run
store after the checks, its boolean recorded as `baseline_updated` and
its store returned. -/
theorem run_stage_order (st : StoreState) (stats : TableStats) (config : TableConfig) :
    (Runner.run st stats config).1.results =
      schemaStage stats config.schema ++
      driftStage stats config (BaselineStore.load st stats.table_name) ++
      nullStage stats config ++
      requiredStage stats config.required ++
      uniqueStage stats config.unique ++
      rowCountStage stats config.row_count ++
      volumeStage stats config (BaselineStore.load st stats.table_name) ∧
    (Runner.run st stats config).1.baseline_updated = (BaselineStore.save st stats).1 ∧
    (Runner.run st stats config).2 = (BaselineStore.save st stats).2 ∧
    (Runner.run st stats config).1.results.Pairwise stageLe := by
  have hb0 : ∀ r ∈ schemaStage stats config.schema, stageIdx r.check = 0 := by
    intro r hr
    cases h : config.schema with
    | none =>
        rw [h] at hr
        simp [schemaStage] at hr
    | some sc =>
        rw [h] at hr
        rw [check_schema_check_name stats sc r hr]
        rfl
  have hb1 : ∀ r ∈ driftStage stats config (BaselineStore.load st stats.table_name),
      stageIdx r.check = 1 := by
    intro r hr
    unfold driftStage at hr
    split_ifs at hr
    · rw [check_schema_drift_check_name _ _ _ r hr]
      rfl
    · simp at hr
  have hb2 : ∀ r ∈ nullStage stats config, stageIdx r.check = 2 := by
    intro r hr
    unfold nullStage at hr
    split_ifs at hr
    · rw [check_null_rate_check_name _ _ r hr]
      rfl
    · simp at hr
  have hb3 : ∀ r ∈ requiredStage stats config.required, stageIdx r.check = 3 := by
    intro r hr
    cases h : config.required with
    | none =>
        rw [h] at hr
        simp [requiredStage] at hr
    | some rc =>
        rw [h] at hr
        rw [check_required_columns_check_name stats rc r hr]
        rfl
  have hb4 : ∀ r ∈ uniqueStage stats config.unique, stageIdx r.check = 4 := by
    intro r hr
    cases h : config.unique with
    | none =>
        rw [h] at hr
        simp [uniqueStage] at hr
    | some uc =>
        rw [h] at hr
        rw [check_unique_check_name stats uc r hr]
        rfl
  have hb5 : ∀ r ∈ rowCountStage stats config.row_count, stageIdx r.check = 5 := by
    intro r hr
    cases h : config.row_count with
    | none =>
        rw [h] at hr
        simp [rowCountStage] at hr
    | some rcc =>
        rw [h] at hr
        rw [check_row_count_check_name stats rcc r hr]
        rfl
  have hb6 : ∀ r ∈ volumeStage stats config (BaselineStore.load st stats.table_name),
      stageIdx r.check = 6 := by
    intro r hr
    unfold volumeStage at hr
    split_ifs at hr
    · rw [check_volume_change_check_name _ _ _ r hr]
      rfl
    · simp at hr
  refine ⟨?_, ?_, ?_, ?_⟩
  · rfl
  · rfl
  · rfl
  · have h1 : (Runner.run st stats config).1.results =
        schemaStage stats config.schema ++
        driftStage stats config (BaselineStore.load st stats.table_name) ++
        nullStage stats config ++
        requiredStage stats config.required ++
        uniqueStage stats config.unique ++
        rowCountStage stats config.row_count ++
        volumeStage stats config (BaselineStore.load st stats.table_name) := rfl
    rw [h1]
    simp only [List.append_assoc]
    exact pairwise_stage_blocks _ _ _ _ _ _ _ hb0 hb1 hb2 hb3 hb4 hb5 hb6

end Gaya
